import Mathlib

/-!
Verification of the chart computation core of `server.py` (astro backend).

The development shallowly embeds the functions of `server.py`:
angle/zodiac utilities, the obliquity helper with its fallback, the
ascendant formula, whole-sign house assignment, the local date/time
parser (a faithful model of the `strptime` patterns the code relies on),
timezone resolution and local-to-UTC conversion, and the `/calculate`
request pipeline.  External collaborators (the skyfield ephemeris, the
timezonefinder resolver, the zoneinfo database) are passed in as explicit
parameters, mirroring how the code calls out to them.

Real-valued arithmetic is embedded over `ℝ` (exact real semantics of the
formulas).  Where a claim hinges on IEEE binary64 behaviour of the Python
float modulo, a separate exact model of binary64 rounding over `ℚ` is
used; see `isBinary64`, `roundsTo` and `pyFloatMod360` below.
-/

/- ## Angle utilities (server.py lines 46-53) -/

/-- math.radians: degrees to radians. -/
noncomputable def radians (d : ℝ) : ℝ := d * (Real.pi / 180)

/-- math.degrees: radians to degrees. -/
noncomputable def degrees (r : ℝ) : ℝ := r * (180 / Real.pi)

/-- math.atan2 on exact reals (the standard quadrant-aware arctangent;
the signed-zero distinctions of IEEE floats do not exist on `ℝ`). -/
noncomputable def atan2 (y x : ℝ) : ℝ :=
  if 0 < x then Real.arctan (y / x)
  else if x < 0 then
    (if 0 ≤ y then Real.arctan (y / x) + Real.pi else Real.arctan (y / x) - Real.pi)
  else
    (if 0 < y then Real.pi / 2 else if y < 0 then -(Real.pi / 2) else 0)

/-- normalize_deg, line 46-47: `deg % 360.0`.  Python float `%` is the
floored modulo; on exact reals this is `d - 360 * ⌊d / 360⌋`.  The
binary64 boundary behaviour of the same expression is modelled separately
by `pyFloatMod360` below. -/
noncomputable def normalize_deg (d : ℝ) : ℝ := d - 360 * ⌊d / 360⌋

/-- sign_index_from_lon, line 49-50: `int(normalize_deg(lon) // 30)`.
The argument of `int` is already a nonnegative whole float, so `int`
truncation agrees with the floor. -/
noncomputable def sign_index_from_lon (lon_deg : ℝ) : ℤ :=
  ⌊normalize_deg lon_deg / 30⌋

/-- deg_in_sign, line 52-53: `normalize_deg(lon) % 30.0` (floored modulo
on exact reals). -/
noncomputable def deg_in_sign (lon_deg : ℝ) : ℝ :=
  normalize_deg lon_deg - 30 * ⌊normalize_deg lon_deg / 30⌋

/-- SIGNS, lines 40-44. -/
def SIGNS : List String :=
  ["Aries", "Taurus", "Gemini", "Cancer",
   "Leo", "Virgo", "Libra", "Scorpio",
   "Sagittarius", "Capricorn", "Aquarius", "Pisces"]

/-- Keys of the PLANETS dict, lines 30-38 (the skyfield handles bound to
them are opaque; the ephemeris model below answers longitude queries by
name). -/
def PLANETS : List String :=
  ["Sun", "Moon", "Mercury", "Venus", "Mars", "Jupiter", "Saturn"]

/- ## House assignment (server.py lines 175-178) -/

/-- Whole-sign house number, line 178: `((p_sidx - asc_sidx) % 12) + 1`.
Python `%` with a positive divisor is never negative; `Int.emod` (the `%`
of `ℤ`) agrees with it there. -/
def house (bodySignIndex ascSignIndex : ℤ) : ℤ :=
  (bodySignIndex - ascSignIndex) % 12 + 1

/- ## Ephemeris backend model and the obliquity helper (lines 86-94) -/

/-- The external skyfield backend, as the code consumes it: Greenwich
apparent sidereal time in hours (`t.gast`), the optional
`true_obliquity_radians` helper (absent when the import at lines 15-18
failed; when present, a call either returns a value or raises), and the
apparent geocentric ecliptic longitude of a named body in degrees
(lines 120-127).  Instants are UTC epoch seconds. -/
structure Ephemeris where
  gast : ℤ → ℝ
  trueObliquityRadians : Option (ℤ → Except String ℝ)
  planetLon : String → ℤ → ℝ

/-- get_true_obliquity_rad, lines 86-94: prefer the backend value; on an
absent helper or a raising call, silently fall back to
`math.radians(23.4392911)`. -/
noncomputable def get_true_obliquity_rad (E : Ephemeris) (t : ℤ) : ℝ :=
  match E.trueObliquityRadians with
  | some f =>
    match f t with
    | Except.ok v => v
    | Except.error _ => radians 23.4392911
  | none => radians 23.4392911

/-- compute_ascendant_deg, lines 96-118. -/
noncomputable def compute_ascendant_deg (E : Ephemeris) (t : ℤ)
    (lat_deg lon_deg : ℝ) : ℝ :=
  let gast_deg := E.gast t * 15.0
  let last_deg := normalize_deg (gast_deg + lon_deg)
  let theta := radians last_deg
  let eps := get_true_obliquity_rad E t
  let phi := radians lat_deg
  let asc_rad := atan2 (Real.sin theta)
    (Real.cos theta * Real.cos eps - Real.tan phi * Real.sin eps)
  normalize_deg (degrees asc_rad)

/-- planet_ecliptic_longitude_deg, lines 120-127: the backend longitude,
normalized. -/
noncomputable def planet_ecliptic_longitude_deg (E : Ephemeris) (t : ℤ)
    (name : String) : ℝ :=
  normalize_deg (E.planetLon name t)

/-- The canonical analytic Ascendant formula exactly as the specification
words it (for the refinement comparison with `compute_ascendant_deg`):
theta = radians(normalize(GAST_hours * 15.0 + longitudeDeg)), eps the
true obliquity of date in radians, phi = radians(latitudeDeg), result
normalize(degrees(atan2(sin theta, cos theta * cos eps - tan phi * sin eps))). -/
noncomputable def ascendantSpecFormula (gastHours eps lat_deg lon_deg : ℝ) : ℝ :=
  normalize_deg (degrees (atan2
    (Real.sin (radians (normalize_deg (gastHours * 15.0 + lon_deg))))
    (Real.cos (radians (normalize_deg (gastHours * 15.0 + lon_deg))) * Real.cos eps
      - Real.tan (radians lat_deg) * Real.sin eps)))

/- ## Exact model of binary64 floats and of the CPython float modulo -/

/-- A rational is representable as an IEEE binary64 value: a 53-bit
signed integer significand times a power of two (the exponent range is
irrelevant at the magnitudes that appear here; the power is split into
the nonnegative and negative cases to stay within `ℕ` exponents). -/
def isBinary64 (q : ℚ) : Prop :=
  ∃ m : ℤ, ∃ n : ℕ, |m| < 2 ^ 53 ∧ (q = m * 2 ^ n ∨ q = m / 2 ^ n)

/-- Round to nearest: `r` is a binary64 value at minimal distance from
the exact value `x`.  Tie-breaking (to even) is irrelevant wherever the
relation is used here, because the nearest value is unique there. -/
def roundsTo (x r : ℚ) : Prop :=
  isBinary64 r ∧ ∀ d : ℚ, isBinary64 d → |x - r| ≤ |x - d|

/-- C fmod(x, 360.0) on exact inputs: the remainder of truncating
division, carrying the sign of `x`.  fmod is always exact in binary64. -/
def fmod360 (x : ℚ) : ℚ :=
  x - 360 * (if 0 ≤ x then (⌊x / 360⌋ : ℤ) else -⌊-x / 360⌋)

/-- CPython float_rem semantics of `x % 360.0` (floatobject.c): compute
`mod = fmod(x, 360.0)`; when `mod` is zero the result is `copysign(0.0,
360.0) = 0.0`; when `mod` is negative (sign differing from the divisor)
the result is the binary64-rounded sum `mod + 360.0`; otherwise `mod` is
returned unchanged.  Rounding of the sum is the one inexact step. -/
def pyFloatMod360 (x r : ℚ) : Prop :=
  (fmod360 x = 0 ∧ r = 0) ∨
  (fmod360 x < 0 ∧ roundsTo (fmod360 x + 360) r) ∨
  (0 < fmod360 x ∧ r = fmod360 x)

/- ## Local date/time parsing (server.py lines 61-66) -/

/-- Python exceptions that can escape `calculate` (the code installs no
handler, so any of these surfaces as an unhandled server error). -/
inductive PyError where
  | valueError (msg : String)
  | zoneInfoNotFound (key : String)
deriving DecidableEq

/-- The naive local datetime produced by `datetime.strptime` (the formats
used carry no sub-second field). -/
structure NaiveDT where
  year : ℕ
  month : ℕ
  day : ℕ
  hour : ℕ
  minute : ℕ
  second : ℕ
deriving DecidableEq

/-- Numeric value of a decimal digit character. -/
def dval (c : Char) : ℕ := c.toNat - 48

/-- The ASCII whitespace characters `str.strip()` removes (the further
Unicode space characters it also strips play no role here). -/
def pySpaceChar (c : Char) : Bool :=
  c = ' ' || c = '\t' || c = '\n' || c = '\r' || c = '\x0b' || c = '\x0c'

/-- str.strip() with no argument: drop leading and trailing whitespace. -/
def pyStrip (s : List Char) : List Char :=
  ((s.dropWhile pySpaceChar).reverse.dropWhile pySpaceChar).reverse

/-- str.replace of every "." by ":" (line 63). -/
def replaceDotsWithColons (s : List Char) : List Char :=
  s.map (fun c => if c = '.' then ':' else c)

/-- Regex field %Y of _strptime: exactly four decimal digits. -/
def altY : List Char → Option (ℕ × List Char)
  | a :: b :: c :: d :: r =>
    if a.isDigit ∧ b.isDigit ∧ c.isDigit ∧ d.isDigit then
      some (1000 * dval a + 100 * dval b + 10 * dval c + dval d, r)
    else none
  | _ => none

/-- Regex field %m of _strptime, the ordered alternatives of
`1[0-2]|0[1-9]|[1-9]`; every applicable alternative is listed so that the
matcher can backtrack in regex order. -/
def altsMonth (s : List Char) : List (ℕ × List Char) :=
  (match s with
   | '1' :: c :: r => if '0' ≤ c ∧ c ≤ '2' then [(10 + dval c, r)] else []
   | _ => []) ++
  (match s with
   | '0' :: c :: r => if '1' ≤ c ∧ c ≤ '9' then [(dval c, r)] else []
   | _ => []) ++
  (match s with
   | c :: r => if '1' ≤ c ∧ c ≤ '9' then [(dval c, r)] else []
   | _ => [])

/-- Regex field %d: `3[01]|[12]\d|0[1-9]|[1-9]`. -/
def altsDay (s : List Char) : List (ℕ × List Char) :=
  (match s with
   | '3' :: c :: r => if '0' ≤ c ∧ c ≤ '1' then [(30 + dval c, r)] else []
   | _ => []) ++
  (match s with
   | a :: c :: r =>
     if ('1' ≤ a ∧ a ≤ '2') ∧ c.isDigit then [(10 * dval a + dval c, r)] else []
   | _ => []) ++
  (match s with
   | '0' :: c :: r => if '1' ≤ c ∧ c ≤ '9' then [(dval c, r)] else []
   | _ => []) ++
  (match s with
   | c :: r => if '1' ≤ c ∧ c ≤ '9' then [(dval c, r)] else []
   | _ => [])

/-- Regex field %H: `2[0-3]|[0-1]\d|\d`. -/
def altsHour (s : List Char) : List (ℕ × List Char) :=
  (match s with
   | '2' :: c :: r => if '0' ≤ c ∧ c ≤ '3' then [(20 + dval c, r)] else []
   | _ => []) ++
  (match s with
   | a :: c :: r =>
     if ('0' ≤ a ∧ a ≤ '1') ∧ c.isDigit then [(10 * dval a + dval c, r)] else []
   | _ => []) ++
  (match s with
   | c :: r => if c.isDigit then [(dval c, r)] else []
   | _ => [])

/-- Regex field %M: `[0-5]\d|\d`. -/
def altsMinute (s : List Char) : List (ℕ × List Char) :=
  (match s with
   | a :: c :: r =>
     if ('0' ≤ a ∧ a ≤ '5') ∧ c.isDigit then [(10 * dval a + dval c, r)] else []
   | _ => []) ++
  (match s with
   | c :: r => if c.isDigit then [(dval c, r)] else []
   | _ => [])

/-- Regex field %S: `6[0-1]|[0-5]\d|\d` (60 and 61 pass the regex; the
datetime constructor rejects them afterwards). -/
def altsSecond (s : List Char) : List (ℕ × List Char) :=
  (match s with
   | '6' :: c :: r => if '0' ≤ c ∧ c ≤ '1' then [(60 + dval c, r)] else []
   | _ => []) ++
  (match s with
   | a :: c :: r =>
     if ('0' ≤ a ∧ a ≤ '5') ∧ c.isDigit then [(10 * dval a + dval c, r)] else []
   | _ => []) ++
  (match s with
   | c :: r => if c.isDigit then [(dval c, r)] else []
   | _ => [])

/-- Try the candidate matches of one regex field in order, giving each
the rest of the match as continuation (regex backtracking). -/
def firstParse {α : Type} (cands : List (ℕ × List Char))
    (k : ℕ → List Char → Option α) : Option α :=
  cands.findSome? (fun vr => k vr.1 vr.2)

/-- Match one literal character of the format. -/
def expectChar (c : Char) (s : List Char) : Option (List Char) :=
  match s with
  | a :: r => if a = c then some r else none
  | [] => none

/-- Whitespace in a strptime format matches one or more whitespace
characters.  Matching greedily loses nothing here: the field after the
run starts with a digit, which no given-back space could satisfy. -/
def wsRun : List Char → Option (List Char)
  | a :: r => if pySpaceChar a then some (r.dropWhile pySpaceChar) else none
  | [] => none

/-- Full regex match of "%Y-%m-%d %H:%M" (and ":%S" when `withSeconds`)
against the whole input, as `_strptime` performs it: a prefix match that
must consume every character. -/
def strptimeYmdHM (withSeconds : Bool) (s : List Char) :
    Option (ℕ × ℕ × ℕ × ℕ × ℕ × ℕ) :=
  match altY s with
  | none => none
  | some (y, s1) =>
    match expectChar '-' s1 with
    | none => none
    | some s2 =>
      firstParse (altsMonth s2) (fun mo s3 =>
        match expectChar '-' s3 with
        | none => none
        | some s4 =>
          firstParse (altsDay s4) (fun d s5 =>
            match wsRun s5 with
            | none => none
            | some s6 =>
              firstParse (altsHour s6) (fun h s7 =>
                match expectChar ':' s7 with
                | none => none
                | some s8 =>
                  firstParse (altsMinute s8) (fun mi s9 =>
                    if withSeconds then
                      (match expectChar ':' s9 with
                       | none => none
                       | some s10 =>
                         firstParse (altsSecond s10) (fun se s11 =>
                           if s11 = [] then some (y, mo, d, h, mi, se) else none))
                    else
                      if s9 = [] then some (y, mo, d, h, mi, 0) else none))))

/-- Gregorian leap year, as datetime uses it. -/
def isLeapYear (y : ℕ) : Bool :=
  decide (y % 4 = 0 ∧ (y % 100 ≠ 0 ∨ y % 400 = 0))

/-- Length of a month, as datetime uses it. -/
def daysInMonth (y m : ℕ) : ℕ :=
  if m = 2 then (if isLeapYear y then 29 else 28)
  else if m = 4 ∨ m = 6 ∨ m = 9 ∨ m = 11 then 30 else 31

/-- parse_local_datetime, lines 61-66: strip the time string, replace
"." by ":", pick the format by the number of ":" (two means seconds are
present), and run strptime on the combined "date time" string.  The
datetime construction inside strptime additionally rejects year 0, a day
beyond the month length, and the leap-second values the regex lets
through; each failure raises ValueError. -/
def parse_local_datetime (date_str time_str : String) : Except PyError NaiveDT :=
  let t := replaceDotsWithColons (pyStrip time_str.data)
  let withSeconds := t.count ':' = 2
  match strptimeYmdHM withSeconds (date_str.data ++ ' ' :: t) with
  | none => Except.error (PyError.valueError "time data does not match format")
  | some (y, mo, d, h, mi, se) =>
    if y = 0 then Except.error (PyError.valueError "year 0 is out of range")
    else if d > daysInMonth y mo then
      Except.error (PyError.valueError "day is out of range for month")
    else if se > 59 then
      Except.error (PyError.valueError "second must be in 0..59")
    else Except.ok ⟨y, mo, d, h, mi, se⟩

/- ## Timezone resolution and local-to-UTC conversion (lines 55-78) -/

/-- The external timezonefinder resolver, as the code calls it.  A lookup
yields an IANA zone key or None; Python treats the empty string as falsy
too, which `get_iana_tz` has to respect. -/
structure TzFinder where
  timezone_at : ℚ → ℚ → Option String
  certain_timezone_at : ℚ → ℚ → Option String

/-- Python truthiness of an optional string: None and "" are falsy. -/
def pyTruthyStr : Option String → Bool
  | none => false
  | some s => decide (s ≠ "")

/-- get_iana_tz, lines 55-59: first resolver answer that is truthy, else
raise ValueError. -/
def get_iana_tz (tf : TzFinder) (lat lon : ℚ) : Except PyError String :=
  let tz0 := tf.timezone_at lat lon
  let tz_name := if pyTruthyStr tz0 then tz0 else tf.certain_timezone_at lat lon
  if pyTruthyStr tz_name then Except.ok (tz_name.getD "")
  else Except.error
    (PyError.valueError "Could not determine IANA timezone from coordinates")

/-- A zoneinfo timezone, modelled around one offset transition: before
the UTC instant `transUtc` the UTC offset is `offBefore` seconds, from it
on `offAfter`.  This is the shape every DST transition has; instants far
from a transition are covered by putting the transition far away. -/
structure Zone where
  transUtc : ℤ
  offBefore : ℤ
  offAfter : ℤ

/-- UTC offset zoneinfo assigns to a naive wall-clock time with fold=0
(the default the code keeps, line 73-74).  zoneinfo compares the local
timestamp against the transition expressed in wall-clock seconds; for
fold=0 that boundary is the transition instant plus the larger of the
two offsets, so a time in a fall-back overlap or in a spring-forward gap
both resolve to the pre-transition offset (PEP 495). -/
def utcOffsetFold0 (z : Zone) (wall : ℤ) : ℤ :=
  if wall < z.transUtc + max z.offBefore z.offAfter then z.offBefore else z.offAfter

/-- dt_local.astimezone(UTC), line 77, on wall-clock seconds: subtract
the fold=0 offset. -/
def localToUtcSecs (z : Zone) (wall : ℤ) : ℤ := wall - utcOffsetFold0 z wall

/-- Wall-clock reading in zone `z` of a UTC instant (what an aware UTC
datetime converts to in that zone); used to state which UTC instants are
valid interpretations of a local time. -/
def utcToWall (z : Zone) (u : ℤ) : ℤ :=
  u + (if u < z.transUtc then z.offBefore else z.offAfter)

/-- Days from 1970-01-01 of a Gregorian date (the standard
days-from-civil computation; year at least 1 here, so the era arithmetic
stays in `ℕ`). -/
def daysFromCivil (y m d : ℕ) : ℤ :=
  let yb := y - (if m ≤ 2 then 1 else 0)
  let mp := (m + 9) % 12
  let doy := (153 * mp + 2) / 5 + d - 1
  ((yb * 365 + yb / 4 + yb / 400 + doy : ℕ) : ℤ) - ((yb / 100 : ℕ) : ℤ) - 719468

/-- Epoch seconds of a naive datetime read as UTC wall-clock. -/
def toEpochSecs (dt : NaiveDT) : ℤ :=
  86400 * daysFromCivil dt.year dt.month dt.day
    + 3600 * dt.hour + 60 * dt.minute + dt.second

/-- local_to_utc, lines 68-78: parse the naive local datetime, resolve
the zone from the coordinates alone (the function takes no timezone
argument), attach it with the default fold=0 and convert to UTC.  The
zoneinfo database is a parameter; an unknown key raises.  Returns the
triple (tz_name, dt_local, dt_utc) of line 78 with the UTC instant as
epoch seconds. -/
def local_to_utc (tf : TzFinder) (zdb : String → Option Zone)
    (date_str time_str : String) (lat lon : ℚ) :
    Except PyError (String × NaiveDT × ℤ) :=
  match parse_local_datetime date_str time_str with
  | Except.error e => Except.error e
  | Except.ok dtLocal =>
    match get_iana_tz tf lat lon with
    | Except.error e => Except.error e
    | Except.ok tz_name =>
      match zdb tz_name with
      | none => Except.error (PyError.zoneInfoNotFound tz_name)
      | some z => Except.ok (tz_name, dtLocal, localToUtcSecs z (toEpochSecs dtLocal))

/- ## The /calculate pipeline (lines 133-188) -/

/-- The JSON request body as `calculate` reads it: either latitude or
lat, either longitude or lon, date, time.  A client may also send a
timezone field; no line of `calculate` reads it. -/
structure AstroRequest where
  latitude : Option ℚ
  lat : Option ℚ
  longitude : Option ℚ
  lon : Option ℚ
  date : Option String
  time : Option String
  timezone : Option String

/-- round(x, 6) of lines 163 and 172, modelled as exact decimal rounding
(the binary64 value Python returns is within a half-ulp of this; no
claim inspects the field). -/
noncomputable def round6 (x : ℝ) : ℝ := (round (x * 1000000) : ℤ) / 1000000

/-- One planet entry of the response (lines 160-164 plus the house added
at line 178). -/
structure PlanetOut where
  longitude : ℝ
  sign : String
  degreeInSign : ℝ
  house : ℤ

/-- The ascendant entry of the response (lines 169-173). -/
structure AscendantOut where
  longitude : ℝ
  sign : String
  degreeInSign : ℝ

/-- The success payload of lines 180-188. -/
structure ChartOut where
  ascendant : AscendantOut
  planets : List (String × PlanetOut)
  tzName : String
  localDT : NaiveDT
  utcSecs : ℤ

/-- Outcome of one request: the 200 payload, the explicit 400 response
of line 144, or an exception that no handler catches (the web framework
turns those into a generic 500 server error). -/
inductive CalcResult where
  | ok (chart : ChartOut)
  | clientError (msg : String)
  | uncaught (e : PyError)

/-- calculate, lines 133-188.  The ephemeris, the timezone resolver and
the zoneinfo database are the process-wide collaborators.  Skyfield time
construction (line 153) is collapsed into the UTC epoch seconds that key
the ephemeris model. -/
noncomputable def calculate (E : Ephemeris) (tf : TzFinder)
    (zdb : String → Option Zone) (req : AstroRequest) : CalcResult :=
  let latq := match req.latitude with | some v => some v | none => req.lat
  let lonq := match req.longitude with | some v => some v | none => req.lon
  match req.date, req.time, latq, lonq with
  | some date_str, some time_str, some lat, some lon =>
    match local_to_utc tf zdb date_str time_str lat lon with
    | Except.error e => CalcResult.uncaught e
    | Except.ok (tz_name, dtLocal, utcSecs) =>
      let t := utcSecs
      let asc_deg := compute_ascendant_deg E t (lat : ℝ) (lon : ℝ)
      let asc_sidx := sign_index_from_lon asc_deg
      let asc : AscendantOut :=
        { longitude := asc_deg
          sign := SIGNS.getD asc_sidx.toNat ""
          degreeInSign := round6 (deg_in_sign asc_deg) }
      let planets := PLANETS.map (fun name =>
        let lon_deg := planet_ecliptic_longitude_deg E t name
        let p_sidx := sign_index_from_lon lon_deg
        (name, { longitude := lon_deg
                 sign := SIGNS.getD p_sidx.toNat ""
                 degreeInSign := round6 (deg_in_sign lon_deg)
                 house := house p_sidx asc_sidx : PlanetOut }))
      CalcResult.ok
        { ascendant := asc
          planets := planets
          tzName := tz_name
          localDT := dtLocal
          utcSecs := utcSecs }
  | _, _, _, _ =>
    CalcResult.clientError "Expected date, time, latitude, longitude"

/-- The outcome is a 200 chart. -/
def CalcResult.isHttpOk : CalcResult → Bool
  | CalcResult.ok _ => true
  | _ => false

/-- The outcome is the explicit 400 client-error response. -/
def CalcResult.isClientError : CalcResult → Bool
  | CalcResult.clientError _ => true
  | _ => false

/-- The outcome is an uncaught exception (a 500 server error at the
transport). -/
def CalcResult.isUncaught : CalcResult → Bool
  | CalcResult.uncaught _ => true
  | _ => false

/-- Timezone name of the response metadata, when the request succeeded. -/
def CalcResult.tzNameOut : CalcResult → Option String
  | CalcResult.ok c => some c.tzName
  | _ => none

/- ## Helper lemmas -/

/-- Replacing dots by colons twice is the same as once. -/
theorem replaceDotsWithColons_idem (s : List Char) :
    replaceDotsWithColons (replaceDotsWithColons s) = replaceDotsWithColons s := by
  simp only [replaceDotsWithColons, List.map_map]
  refine List.map_congr_left (fun c _ => ?_)
  by_cases h : c = '.' <;> simp [h, Function.comp]

/-- Stripping whitespace commutes with the dot-for-colon replacement
(the replacement moves no character into or out of the whitespace set). -/
theorem pyStrip_replaceDotsWithColons (s : List Char) :
    pyStrip (replaceDotsWithColons s) = replaceDotsWithColons (pyStrip s) := by
  have hfun : (pySpaceChar ∘ fun c => if c = '.' then ':' else c) = pySpaceChar := by
    funext c
    by_cases h : c = '.'
    · subst h; rfl
    · simp [h, Function.comp]
  simp only [pyStrip, replaceDotsWithColons, ← List.map_reverse, List.dropWhile_map, hfun]

/-- 360 is exactly representable in binary64. -/
theorem isBinary64_360 : isBinary64 360 :=
  ⟨360, 0, by norm_num, Or.inl (by norm_num)⟩

/-- No binary64 value lies strictly between 360 - 2⁻⁴⁵ and 360: values
with exponent at least -45 sit on a grid of spacing at least 2⁻⁴⁵ that
contains 360, and values with a smaller exponent cannot reach 360 with a
53-bit significand. -/
theorem binary64_le_of_lt_360 (q : ℚ) (h : isBinary64 q) (hlt : q < 360) :
    q ≤ 360 - 1 / 2 ^ 45 := by
  obtain ⟨m, n, hm, hq | hq⟩ := h
  · -- q is the integer m * 2^n
    have hk : q = ((m * 2 ^ n : ℤ) : ℚ) := by push_cast [hq]; ring
    have hlt2 : (m * 2 ^ n : ℤ) < 360 := by exact_mod_cast hk ▸ hlt
    have : (m * 2 ^ n : ℤ) ≤ 359 := by omega
    have : ((m * 2 ^ n : ℤ) : ℚ) ≤ 359 := by exact_mod_cast this
    rw [hk]
    linarith [show (1:ℚ) / 2 ^ 45 ≤ 1 by norm_num]
  · by_cases hn : n ≤ 45
    · -- q sits on the 2⁻⁴⁵ grid
      have hsplit : (2:ℚ) ^ 45 = 2 ^ (45 - n) * 2 ^ n := by
        rw [← pow_add]
        congr 1
        omega
      have hk : q = ((m * 2 ^ (45 - n) : ℤ) : ℚ) / 2 ^ 45 := by
        rw [hq, hsplit]
        push_cast
        rw [div_eq_div_iff (by positivity) (by positivity)]
        ring
      have hlt2 : ((m * 2 ^ (45 - n) : ℤ) : ℚ) < 360 * 2 ^ 45 := by
        rw [hk] at hlt
        rw [div_lt_iff₀ (by positivity)] at hlt
        linarith
      have hle : (m * 2 ^ (45 - n) : ℤ) ≤ 360 * 2 ^ 45 - 1 := by
        have : (m * 2 ^ (45 - n) : ℤ) < 360 * 2 ^ 45 := by exact_mod_cast hlt2
        omega
      have hle2 : ((m * 2 ^ (45 - n) : ℤ) : ℚ) ≤ 360 * 2 ^ 45 - 1 := by
        exact_mod_cast hle
      rw [hk, div_le_iff₀ (by positivity)]
      nlinarith [hle2]
    · -- the exponent is small: the magnitude stays below 128
      have hmq : (m : ℚ) ≤ 2 ^ 53 := by
        have : m ≤ 2 ^ 53 := by
          have := (abs_lt.mp hm).2
          omega
        exact_mod_cast this
      have hpow : (2:ℚ) ^ 46 ≤ 2 ^ n := by
        have : (46:ℕ) ≤ n := by omega
        exact pow_le_pow_right₀ (by norm_num) this
      have h1 : q ≤ (2:ℚ) ^ 53 / 2 ^ n := by
        rw [hq]
        gcongr
      have h2 : (2:ℚ) ^ 53 / 2 ^ n ≤ (2:ℚ) ^ 53 / 2 ^ 46 := by
        gcongr
      have h3 : (2:ℚ) ^ 53 / 2 ^ 46 = 128 := by norm_num
      have h4 : (1:ℚ) / 2 ^ 45 ≤ 1 := by norm_num
      linarith

/-- A value within 2⁻⁴⁶ below 360 rounds to nearest as exactly 360: the
distance to 360 is at most 2⁻⁴⁶, while every other binary64 value is at
least 2⁻⁴⁵ − ε away. -/
theorem roundsTo_near_360 (ε : ℚ) (h1 : 0 < ε) (h2 : ε ≤ 1 / 2 ^ 46) :
    roundsTo (360 - ε) 360 := by
  refine ⟨isBinary64_360, fun d hd => ?_⟩
  have e1 : |360 - ε - (360:ℚ)| = ε := by
    rw [abs_of_nonpos (by linarith)]
    ring
  have hhalf : (1:ℚ) / 2 ^ 46 + 1 / 2 ^ 46 ≤ 1 / 2 ^ 45 := by norm_num
  rcases le_or_lt 360 d with hge | hlt
  · have e2 : |360 - ε - d| = d - 360 + ε := by
      rw [abs_of_nonpos (by linarith)]
      ring
    rw [e1, e2]
    linarith
  · have hb := binary64_le_of_lt_360 d hd hlt
    have e2 : |360 - ε - d| = 360 - ε - d := by
      apply abs_of_nonneg
      linarith
    rw [e1, e2]
    linarith

/-- fmod of a small negative value is that value itself (exactly). -/
theorem fmod360_tiny_neg (ε : ℚ) (h1 : 0 < ε) (h2 : ε < 360) :
    fmod360 (-ε) = -ε := by
  unfold fmod360
  rw [if_neg (by linarith)]
  have hz : ⌊-(-ε) / 360⌋ = 0 := by
    rw [Int.floor_eq_zero_iff, Set.mem_Ico]
    constructor
    · exact div_nonneg (by linarith) (by norm_num)
    · rw [div_lt_one (by norm_num)]
      linarith
  rw [hz]
  push_cast
  ring

/-- fmod of 360 itself is exactly zero. -/
theorem fmod360_360 : fmod360 360 = 0 := by
  unfold fmod360
  rw [if_pos (by norm_num)]
  norm_num

/- ## Claim theorems -/

/-- C1: for every instant and every latitude/longitude pair away from
the polar singularity, with a working obliquity backend (so that eps is
the true obliquity of date), compute_ascendant_deg returns exactly the
canonical analytic formula of the specification:
normalize(degrees(atan2(sin theta, cos theta cos eps - tan phi sin eps)))
with theta = radians(normalize(GAST_hours * 15.0 + longitudeDeg)). -/
theorem C1_ascendant_matches_spec_formula
    (g : ℤ → ℝ) (pl : String → ℤ → ℝ) (epsf : ℤ → ℝ) (t : ℤ)
    (lat lon : ℝ) (_h90 : lat ≠ 90) (_h90n : lat ≠ -90) :
    compute_ascendant_deg ⟨g, some (fun u => Except.ok (epsf u)), pl⟩ t lat lon
      = ascendantSpecFormula (g t) (epsf t) lat lon := rfl

/-- Witness for C1 at the concrete instant t = 0, gast = 12 h, eps =
0.4 rad, latitude 40, longitude -75. -/
theorem C1_ascendant_matches_spec_formula_witness :
    (40 : ℝ) ≠ 90 ∧ (40 : ℝ) ≠ -90 ∧
    compute_ascendant_deg ⟨fun _ => 12, some (fun _ => Except.ok 0.4), fun _ _ => 0⟩
        0 40 (-75)
      = ascendantSpecFormula 12 0.4 40 (-75) :=
  ⟨by norm_num, by norm_num,
    C1_ascendant_matches_spec_formula (fun _ => 12) (fun _ _ => 0) (fun _ => 0.4)
      0 40 (-75) (by norm_num) (by norm_num)⟩

/-- C6: for every ascendant sign index, the map from sign index to house
sends the ascendant sign to house 1, stays within 1..12, is injective,
and reaches every house 1..12: a bijection between the 12 signs and the
12 houses. -/
theorem C6_house_bijection :
    ∀ a : Fin 12,
      house (a : ℤ) (a : ℤ) = 1 ∧
      (∀ s : Fin 12, 1 ≤ house (s : ℤ) (a : ℤ) ∧ house (s : ℤ) (a : ℤ) ≤ 12) ∧
      (∀ s u : Fin 12, house (s : ℤ) (a : ℤ) = house (u : ℤ) (a : ℤ) → s = u) ∧
      (∀ hn : Fin 12, ∃ s : Fin 12, house (s : ℤ) (a : ℤ) = (hn : ℤ) + 1) := by
  decide

/-- C8 amended: a failure to obtain the true obliquity (the helper is
absent, or the backend call raises) is silently replaced by the
fixed fallback constant radians(23.4392911); it does not surface as an
error. -/
theorem C8_obliquity_fallback (g : ℤ → ℝ) (pl : String → ℤ → ℝ)
    (f : ℤ → Except String ℝ) (t : ℤ) (msg : String)
    (hf : f t = Except.error msg) :
    get_true_obliquity_rad ⟨g, some f, pl⟩ t = radians 23.4392911 ∧
    get_true_obliquity_rad ⟨g, none, pl⟩ t = radians 23.4392911 := by
  constructor
  · simp only [get_true_obliquity_rad, hf]
  · rfl

/-- Witness for C8 with a backend whose obliquity call fails at t = 0. -/
theorem C8_obliquity_fallback_witness :
    (fun _ : ℤ => (Except.error "obliquity failed" : Except String ℝ)) 0
        = Except.error "obliquity failed" ∧
    get_true_obliquity_rad
        ⟨fun _ => 0, some (fun _ => Except.error "obliquity failed"), fun _ _ => 0⟩ 0
      = radians 23.4392911 :=
  ⟨rfl,
    (C8_obliquity_fallback (fun _ => 0) (fun _ _ => 0)
      (fun _ => Except.error "obliquity failed") 0 "obliquity failed" rfl).1⟩

/-- C8 counterexample: with a failing obliquity backend the helper
returns the fallback constant as an ordinary value, so the failure is
not surfaced as an error. -/
theorem C8_obliquity_swallowed_counterexample :
    get_true_obliquity_rad
        ⟨fun _ => 0, some (fun _ => Except.error "lookup failed"), fun _ _ => 0⟩ 0
      = radians 23.4392911 := rfl

/-- C10: the parser replaces every "." of the time string by ":" before
matching, so a time written with dots parses exactly like the same time
written with colons; in particular "13.54" is accepted and equals
"13:54". -/
theorem C10_dot_separator :
    (∀ date_str time_str : String,
       parse_local_datetime date_str time_str
         = parse_local_datetime date_str ⟨replaceDotsWithColons time_str.data⟩) ∧
    parse_local_datetime "2021-03-04" "13.54" = parse_local_datetime "2021-03-04" "13:54" ∧
    parse_local_datetime "2021-03-04" "13.54" = Except.ok ⟨2021, 3, 4, 13, 54, 0⟩ := by
  refine ⟨fun d t => ?_, by rfl, by rfl⟩
  show parse_local_datetime d t
      = parse_local_datetime d ⟨replaceDotsWithColons t.data⟩
  unfold parse_local_datetime
  have hdata : (⟨replaceDotsWithColons t.data⟩ : String).data
      = replaceDotsWithColons t.data := rfl
  rw [hdata, pyStrip_replaceDotsWithColons, replaceDotsWithColons_idem]

/-- C3 amended: `calculate` never reads the timezone field of the
request: the outcome with an explicit timezone identifier is identical
to the outcome without one (the zone is always resolved from the
coordinates through the geographic resolver). -/
theorem C3_timezone_field_ignored (E : Ephemeris) (tf : TzFinder)
    (zdb : String → Option Zone) (req : AstroRequest) (z : String) :
    calculate E tf zdb { req with timezone := some z }
      = calculate E tf zdb { req with timezone := none } := rfl

/-- C3 counterexample: a request supplying the explicit timezone
"America/New_York" is answered with the zone the geographic resolver
returns ("Etc/UTC"), not with the supplied identifier. -/
theorem C3_explicit_timezone_not_used_counterexample :
    (calculate ⟨fun _ => 0, none, fun _ _ => 0⟩
        ⟨fun _ _ => some "Etc/UTC", fun _ _ => none⟩
        (fun s => if s = "Etc/UTC" then some ⟨0, 0, 0⟩ else none)
        ⟨some 40, none, some (-75), none, some "2021-03-04", some "13:54",
         some "America/New_York"⟩).tzNameOut = some "Etc/UTC" ∧
    ("Etc/UTC" : String) ≠ "America/New_York" := by
  constructor
  · rfl
  · decide

/-- C4 amended: the code contains no polar-latitude guard at all.  With
the four request fields present, whenever parsing succeeds and the
timezone resolves, `calculate` returns an ok chart for every latitude —
89.9999 included — instead of failing with a polar-latitude domain
error (no such error exists in the code; on exact reals the formula is
total since tan is finite at 89.9999 degrees). -/
theorem C4_no_polar_guard (E : Ephemeris) (tf : TzFinder)
    (zdb : String → Option Zone) (d t : String) (lat lon : ℚ)
    (dtv : NaiveDT) (tzn : String) (z : Zone)
    (hp : parse_local_datetime d t = Except.ok dtv)
    (ht : get_iana_tz tf lat lon = Except.ok tzn)
    (hz : zdb tzn = some z) :
    (calculate E tf zdb
        ⟨some lat, none, some lon, none, some d, some t, none⟩).isHttpOk = true := by
  simp only [calculate, local_to_utc, hp, ht, hz, CalcResult.isHttpOk]

/-- Witness for C4 at latitude 89.9999 exactly. -/
theorem C4_no_polar_guard_witness :
    parse_local_datetime "2021-03-04" "13:54"
        = Except.ok ⟨2021, 3, 4, 13, 54, 0⟩ ∧
    get_iana_tz ⟨fun _ _ => some "UTC", fun _ _ => none⟩ (899999 / 10000) 0
        = Except.ok "UTC" ∧
    (fun s => if s = "UTC" then some (⟨0, 0, 0⟩ : Zone) else none) "UTC"
        = some ⟨0, 0, 0⟩ ∧
    (calculate ⟨fun _ => 0, none, fun _ _ => 0⟩
        ⟨fun _ _ => some "UTC", fun _ _ => none⟩
        (fun s => if s = "UTC" then some ⟨0, 0, 0⟩ else none)
        ⟨some (899999 / 10000), none, some 0, none, some "2021-03-04",
         some "13:54", none⟩).isHttpOk = true :=
  ⟨by rfl, by rfl, by rfl,
    C4_no_polar_guard _ _ _ _ _ _ _ _ _ _ (by rfl) (by rfl) (by rfl)⟩

/-- C4 counterexample: at latitude 89.9999 the chart computation
returns an ok result and raises nothing, while the claim demands a
PolarLatitudeError. -/
theorem C4_polar_latitude_ok_counterexample :
    (calculate ⟨fun _ => 0, none, fun _ _ => 0⟩
        ⟨fun _ _ => some "UTC", fun _ _ => none⟩
        (fun s => if s = "UTC" then some ⟨0, 0, 0⟩ else none)
        ⟨some (899999 / 10000), none, some 0, none, some "1999-12-31",
         some "23:59", none⟩).isHttpOk = true ∧
    (calculate ⟨fun _ => 0, none, fun _ _ => 0⟩
        ⟨fun _ _ => some "UTC", fun _ _ => none⟩
        (fun s => if s = "UTC" then some ⟨0, 0, 0⟩ else none)
        ⟨some (899999 / 10000), none, some 0, none, some "1999-12-31",
         some "23:59", none⟩).isUncaught = false := ⟨rfl, rfl⟩

/-- C7 amended: a malformed date or time string makes the strptime call
raise ValueError, and `calculate` installs no handler: the request ends
as an uncaught exception (a generic 500 at the transport), not as the
explicit client-error response; well-formed HH:MM and HH:MM:SS times
are both accepted. -/
theorem C7_parse_failure_uncaught (E : Ephemeris) (tf : TzFinder)
    (zdb : String → Option Zone) (d t : String) (lat lon : ℚ) (e : PyError)
    (hp : parse_local_datetime d t = Except.error e) :
    calculate E tf zdb ⟨some lat, none, some lon, none, some d, some t, none⟩
        = CalcResult.uncaught e ∧
    parse_local_datetime "2021-03-04" "13:54"
        = Except.ok ⟨2021, 3, 4, 13, 54, 0⟩ ∧
    parse_local_datetime "2021-03-04" "13:54:27"
        = Except.ok ⟨2021, 3, 4, 13, 54, 27⟩ := by
  refine ⟨?_, by rfl, by rfl⟩
  simp only [calculate, local_to_utc, hp]

/-- Witness for C7 at the malformed time "99:99". -/
theorem C7_parse_failure_uncaught_witness :
    parse_local_datetime "2021-03-04" "99:99"
        = Except.error (PyError.valueError "time data does not match format") ∧
    calculate ⟨fun _ => 0, none, fun _ _ => 0⟩
        ⟨fun _ _ => some "UTC", fun _ _ => none⟩ (fun _ => none)
        ⟨some 40, none, some (-75), none, some "2021-03-04", some "99:99", none⟩
      = CalcResult.uncaught (PyError.valueError "time data does not match format") :=
  ⟨by rfl, (C7_parse_failure_uncaught _ _ _ _ _ _ _ _ (by rfl)).1⟩

/-- C7 counterexample: for the malformed time "25:00" the outcome is an
uncaught exception, not a client-error response — the claim says the
failure is surfaced as a client error. -/
theorem C7_malformed_not_client_error_counterexample :
    (calculate ⟨fun _ => 0, none, fun _ _ => 0⟩
        ⟨fun _ _ => some "UTC", fun _ _ => none⟩ (fun _ => none)
        ⟨some 40, none, some (-75), none, some "2021-03-04", some "25:00",
         none⟩).isClientError = false ∧
    (calculate ⟨fun _ => 0, none, fun _ _ => 0⟩
        ⟨fun _ _ => some "UTC", fun _ _ => none⟩ (fun _ => none)
        ⟨some 40, none, some (-75), none, some "2021-03-04", some "25:00",
         none⟩).isUncaught = true := ⟨rfl, rfl⟩

/-- C5: the fold=0 conversion the code relies on is deterministic and
total.  For a fall-back overlap (offset shrinking at the transition), a
wall time with two valid UTC readings maps to the earlier one; for a
spring-forward gap (offset growing), a wall time no UTC instant reads
as maps to the instant whose wall reading is the input shifted forward
by exactly the gap width. -/
theorem C5_fold0_policy (zf zs : Zone) (lAmb lGap : ℤ)
    (hf : zf.offAfter < zf.offBefore)
    (hf1 : zf.transUtc + zf.offAfter ≤ lAmb)
    (hf2 : lAmb < zf.transUtc + zf.offBefore)
    (hs : zs.offBefore < zs.offAfter)
    (hs1 : zs.transUtc + zs.offBefore ≤ lGap)
    (hs2 : lGap < zs.transUtc + zs.offAfter) :
    (utcToWall zf (lAmb - zf.offBefore) = lAmb ∧
     utcToWall zf (lAmb - zf.offAfter) = lAmb ∧
     (∀ u : ℤ, utcToWall zf u = lAmb →
        u = lAmb - zf.offBefore ∨ u = lAmb - zf.offAfter) ∧
     lAmb - zf.offBefore < lAmb - zf.offAfter ∧
     localToUtcSecs zf lAmb = lAmb - zf.offBefore) ∧
    ((∀ u : ℤ, utcToWall zs u ≠ lGap) ∧
     utcToWall zs (localToUtcSecs zs lGap) = lGap + (zs.offAfter - zs.offBefore)) := by
  have hmf : max zf.offBefore zf.offAfter = zf.offBefore := max_eq_left hf.le
  have hms : max zs.offBefore zs.offAfter = zs.offAfter := max_eq_right hs.le
  refine ⟨⟨?_, ?_, ?_, ?_, ?_⟩, ?_, ?_⟩
  · unfold utcToWall
    split_ifs <;> omega
  · unfold utcToWall
    split_ifs <;> omega
  · intro u hu
    unfold utcToWall at hu
    by_cases hc : u < zf.transUtc
    · rw [if_pos hc] at hu
      omega
    · rw [if_neg hc] at hu
      omega
  · omega
  · unfold localToUtcSecs utcOffsetFold0
    rw [hmf]
    split_ifs
    omega
  · intro u
    unfold utcToWall
    split_ifs <;> omega
  · unfold localToUtcSecs utcOffsetFold0 utcToWall
    rw [hms]
    split_ifs <;> omega

/-- Witness for C5: a fall-back zone (offset +2h then +1h) at the
ambiguous wall second 5000, and a spring-forward zone (offset +1h then
+2h) at the skipped wall second 5000, both with the transition at UTC
second 1000. -/
theorem C5_fold0_policy_witness :
    (utcToWall ⟨1000, 7200, 3600⟩ (5000 - 7200) = 5000 ∧
     utcToWall ⟨1000, 7200, 3600⟩ (5000 - 3600) = 5000 ∧
     (∀ u : ℤ, utcToWall ⟨1000, 7200, 3600⟩ u = 5000 →
        u = 5000 - 7200 ∨ u = 5000 - 3600) ∧
     (5000 - 7200 : ℤ) < 5000 - 3600 ∧
     localToUtcSecs ⟨1000, 7200, 3600⟩ 5000 = 5000 - 7200) ∧
    ((∀ u : ℤ, utcToWall ⟨1000, 3600, 7200⟩ u ≠ 5000) ∧
     utcToWall ⟨1000, 3600, 7200⟩ (localToUtcSecs ⟨1000, 3600, 7200⟩ 5000)
       = 5000 + (7200 - 3600)) :=
  C5_fold0_policy ⟨1000, 7200, 3600⟩ ⟨1000, 3600, 7200⟩ 5000 5000
    (by norm_num) (by norm_num) (by norm_num)
    (by norm_num) (by norm_num) (by norm_num)

/-- C2: binary64 evaluation of `deg % 360.0` at a tiny negative input.
fmod is exact there, so the adjusted sum 360 - 2⁻⁶⁰ is rounded, and it
rounds to exactly 360.0: normalize_deg returns 360.0, which is outside
the half-open interval claimed. -/
theorem C2_normalize_boundary_code_bug :
    pyFloatMod360 (-(1 / 2 ^ 60)) 360 ∧ ¬ ((360 : ℚ) < 360) := by
  constructor
  · refine Or.inr (Or.inl ⟨?_, ?_⟩)
    · rw [fmod360_tiny_neg (1 / 2 ^ 60) (by norm_num) (by norm_num)]
      norm_num
    · rw [fmod360_tiny_neg (1 / 2 ^ 60) (by norm_num) (by norm_num)]
      have h : -(1 / 2 ^ 60 : ℚ) + 360 = 360 - 1 / 2 ^ 60 := by ring
      rw [h]
      exact roundsTo_near_360 (1 / 2 ^ 60) (by norm_num) (by norm_num)
  · norm_num

/-- C9: binary64 idempotence failure.  normalize of -2⁻⁵⁹ is exactly
360.0 (first conjunct), normalize of 360.0 is exactly 0.0 (second
conjunct: fmod(360, 360) = 0, returned as copysign(0, 360)), and the
two differ, so normalize(normalize(-2⁻⁵⁹)) differs from
normalize(-2⁻⁵⁹). -/
theorem C9_idempotence_code_bug :
    pyFloatMod360 (-(1 / 2 ^ 59)) 360 ∧ pyFloatMod360 360 0 ∧ (0 : ℚ) ≠ 360 := by
  refine ⟨?_, ?_, by norm_num⟩
  · refine Or.inr (Or.inl ⟨?_, ?_⟩)
    · rw [fmod360_tiny_neg (1 / 2 ^ 59) (by norm_num) (by norm_num)]
      norm_num
    · rw [fmod360_tiny_neg (1 / 2 ^ 59) (by norm_num) (by norm_num)]
      have h : -(1 / 2 ^ 59 : ℚ) + 360 = 360 - 1 / 2 ^ 59 := by ring
      rw [h]
      exact roundsTo_near_360 (1 / 2 ^ 59) (by norm_num) (by norm_num)
  · exact Or.inl ⟨fmod360_360, rfl⟩
